import Mathlib

/-!
Shallow embedding of the document-state cache of the markdown-to-pdf
repository: the content fingerprinter (`calculate_file_hash`, SHA-256 over
4096-byte read chunks) and the `DocumentStateManager` SQLite store
(`src/markdown_to_pdf/verification.py`), together with theorems settling the
specification claims about them.

Bytes are `Nat` values below 256; 32-bit machine words are `Nat` values with
explicit reduction modulo `2 ^ 32` wherever the source arithmetic overflows.
The SQLite table is a list of rows; each operation opens the store, performs
one transactional unit of work and hands the (possibly updated) store back,
so read-only operations are visibly read-only in the embedding.
Timestamps (`CURRENT_TIMESTAMP`) are modelled by an explicit `now : Nat`
argument to the operations that write them.
-/

namespace MdToPdf

/-! Section: SHA-256 over lists of bytes (hashlib.sha256). -/

/-- Right rotation of a 32-bit word held in a `Nat` below `2 ^ 32`. -/
def rotr32 (n w : Nat) : Nat :=
  w / 2 ^ n + w % 2 ^ n * 2 ^ (32 - n)

/-- SHA-256 `Ch` function. -/
def ch32 (e f g : Nat) : Nat :=
  (e &&& f) ^^^ ((e ^^^ 0xffffffff) &&& g)

/-- SHA-256 `Maj` function. -/
def maj32 (a b c : Nat) : Nat :=
  (a &&& b) ^^^ (a &&& c) ^^^ (b &&& c)

/-- SHA-256 big sigma 0. -/
def bsig0 (a : Nat) : Nat := rotr32 2 a ^^^ rotr32 13 a ^^^ rotr32 22 a

/-- SHA-256 big sigma 1. -/
def bsig1 (e : Nat) : Nat := rotr32 6 e ^^^ rotr32 11 e ^^^ rotr32 25 e

/-- SHA-256 small sigma 0. -/
def ssig0 (x : Nat) : Nat := rotr32 7 x ^^^ rotr32 18 x ^^^ x / 2 ^ 3

/-- SHA-256 small sigma 1. -/
def ssig1 (x : Nat) : Nat := rotr32 17 x ^^^ rotr32 19 x ^^^ x / 2 ^ 10

/-- The 64 SHA-256 round constants, written in decimal. -/
def K256 : List Nat :=
  [1116352408, 1899447441, 3049323471, 3921009573, 961987163,
   1508970993, 2453635748, 2870763221, 3624381080, 310598401,
   607225278, 1426881987, 1925078388, 2162078206, 2614888103,
   3248222580, 3835390401, 4022224774, 264347078, 604807628,
   770255983, 1249150122, 1555081692, 1996064986, 2554220882,
   2821834349, 2952996808, 3210313671, 3336571891, 3584528711,
   113926993, 338241895, 666307205, 773529912, 1294757372,
   1396182291, 1695183700, 1986661051, 2177026350, 2456956037,
   2730485921, 2820302411, 3259730800, 3345764771, 3516065817,
   3600352804, 4094571909, 275423344, 430227734, 506948616,
   659060556, 883997877, 958139571, 1322822218, 1537002063,
   1747873779, 1955562222, 2024104815, 2227730452, 2361852424,
   2428436474, 2756734187, 3204031479, 3329325298]

/-- The SHA-256 initial hash value, written in decimal. -/
def H256 : List Nat :=
  [1779033703, 3144134277, 1013904242, 2773480762,
   1359893119, 2600822924, 528734635, 1541459225]

/-- Split a list into consecutive chunks of at most `n` elements, as the
read loop of the source does with `f.read(n)` until the empty chunk.
Fuel-structured so that it reduces definitionally; callers pass
`l.length` as fuel. -/
def chunksAux (n : Nat) : Nat → List α → List (List α)
  | 0, _ => []
  | _, [] => []
  | fuel + 1, a :: l => ((a :: l).take n) :: chunksAux n fuel ((a :: l).drop n)

/-- All consecutive chunks of `n` elements of `l`. -/
def chunksOf (n : Nat) (l : List α) : List (List α) :=
  chunksAux n l.length l

/-- Pack up to four bytes into one big-endian 32-bit word. -/
def word4 (bs : List Nat) : Nat :=
  bs.foldl (fun acc b => acc * 256 + b % 256) 0

/-- Big-endian 8-byte encoding of a length in bits. -/
def lenBytes (n : Nat) : List Nat :=
  [n / 2 ^ 56 % 256, n / 2 ^ 48 % 256, n / 2 ^ 40 % 256, n / 2 ^ 32 % 256,
   n / 2 ^ 24 % 256, n / 2 ^ 16 % 256, n / 2 ^ 8 % 256, n % 256]

/-- SHA-256 padding: append `0x80`, zeros to 56 mod 64, then the 64-bit
bit length. -/
def padMessage (msg : List Nat) : List Nat :=
  msg ++ 0x80 :: List.replicate ((120 - (msg.length + 1) % 64) % 64) 0
      ++ lenBytes (msg.length * 8)

/-- The eight working variables of the compression function. -/
structure Words8 where
  a : Nat
  b : Nat
  c : Nat
  d : Nat
  e : Nat
  f : Nat
  g : Nat
  h : Nat
deriving Repr, DecidableEq

/-- One round of the SHA-256 compression function. -/
def round256 (s : Words8) (kw : Nat × Nat) : Words8 :=
  let t1 := (s.h + bsig1 s.e + ch32 s.e s.f s.g + kw.1 + kw.2) % 2 ^ 32
  let t2 := (bsig0 s.a + maj32 s.a s.b s.c) % 2 ^ 32
  ⟨(t1 + t2) % 2 ^ 32, s.a, s.b, s.c, (s.d + t1) % 2 ^ 32, s.e, s.f, s.g⟩

/-- Extend sixteen message words to the 64-word message schedule. -/
def schedule256 (ws : List Nat) : List Nat :=
  (List.range 48).foldl
    (fun acc _ =>
      let n := acc.length
      acc ++ [(ssig1 (acc.getD (n - 2) 0) + acc.getD (n - 7) 0
              + ssig0 (acc.getD (n - 15) 0) + acc.getD (n - 16) 0) % 2 ^ 32])
    ws

/-- Process one 64-byte block, updating the eight-word hash state. -/
def processBlock (H : List Nat) (block : List Nat) : List Nat :=
  let ws := schedule256 ((chunksOf 4 block).map word4)
  let s0 : Words8 := ⟨H.getD 0 0, H.getD 1 0, H.getD 2 0, H.getD 3 0,
                      H.getD 4 0, H.getD 5 0, H.getD 6 0, H.getD 7 0⟩
  let s := (K256.zip ws).foldl round256 s0
  [(H.getD 0 0 + s.a) % 2 ^ 32, (H.getD 1 0 + s.b) % 2 ^ 32,
   (H.getD 2 0 + s.c) % 2 ^ 32, (H.getD 3 0 + s.d) % 2 ^ 32,
   (H.getD 4 0 + s.e) % 2 ^ 32, (H.getD 5 0 + s.f) % 2 ^ 32,
   (H.getD 6 0 + s.g) % 2 ^ 32, (H.getD 7 0 + s.h) % 2 ^ 32]

/-- SHA-256 of a byte list, as the eight final 32-bit hash words. -/
def sha256words (msg : List Nat) : List Nat :=
  (chunksOf 64 (padMessage msg)).foldl processBlock H256

/-- Lowercase hexadecimal digit for a value below 16. -/
def hexChar (n : Nat) : Char :=
  if n < 10 then Char.ofNat (48 + n) else Char.ofNat (87 + n)

/-- The eight lowercase hex characters of one 32-bit word, big-endian. -/
def wordHex (w : Nat) : List Char :=
  [hexChar (w / 16 ^ 7 % 16), hexChar (w / 16 ^ 6 % 16),
   hexChar (w / 16 ^ 5 % 16), hexChar (w / 16 ^ 4 % 16),
   hexChar (w / 16 ^ 3 % 16), hexChar (w / 16 ^ 2 % 16),
   hexChar (w / 16 ^ 1 % 16), hexChar (w % 16)]

/-- Embedding of `hashlib.sha256(content).hexdigest()`: the 64-character lowercase
hexadecimal SHA-256 digest of a byte list. -/
def sha256hex (msg : List Nat) : String :=
  ⟨((sha256words msg).map wordHex).flatten⟩

/-! Section: the filesystem model and `calculate_file_hash`. -/

/-- What the filesystem holds at a path: nothing, a file that exists but
whose bytes cannot be read (permissions, device error), or readable
content. -/
inductive FileState
  | absent
  | unreadable
  | content (bytes : List Nat)
deriving DecidableEq, Repr

/-- The filesystem: a map from paths to file states. -/
def FileSys : Type := String → FileState

/-- Python exception classes raised by this module: `IOError`/`OSError`
from the underlying `open`/`read`, `RuntimeError` raised by the module's
own wrappers. -/
inductive PyError
  | ioError
  | runtimeError
deriving DecidableEq, Repr

/-- Embedding of `Path.exists()`: true for any path the filesystem holds a file at,
readable or not. -/
def fileExists (fs : FileSys) (p : String) : Bool :=
  match fs p with
  | .absent => false
  | .unreadable => true
  | .content _ => true

/-- The `open`/`read` loop of `calculate_file_hash`: yields the successive
`f.read(4096)` chunks of the file's bytes, or the `IOError`/`OSError` the
interpreter raises when the file is missing or unreadable. -/
def readChunks4096 (fs : FileSys) (p : String) : Except PyError (List (List Nat)) :=
  match fs p with
  | .absent => .error .ioError
  | .unreadable => .error .ioError
  | .content bs => .ok (chunksOf 4096 bs)

/-- Embedding of `calculate_file_hash`: feed each 4096-byte chunk into the running
SHA-256 accumulator and return the hex digest; any failure of the read
loop is caught (`except Exception`) and re-raised as a `RuntimeError`. -/
def calculate_file_hash (fs : FileSys) (p : String) : Except PyError String :=
  match readChunks4096 fs p with
  | .ok cs => .ok (sha256hex (cs.foldl (fun acc c => acc ++ c) []))
  | .error _ => .error .runtimeError

/-! Section: the document-state store (`DocumentStateManager`).

One SQLite row of the `document_state` table.  The dynamic width/height
parameters are taken in their canonical string form (the image of Python's
`str(...)` conversion applied by `save_document_state` and
`needs_regeneration` alike), with `none` for SQL NULL;
`has_page_numbers` is the stored 0/1 integer. -/

structure StateRow where
  filename : String
  markdown_hash : String
  pdf_hash : Option String
  style_profile : String
  max_diagram_width : Option String
  max_diagram_height : Option String
  page_margins : Option String
  has_page_numbers : Nat
  created_at : Nat
  updated_at : Nat
deriving DecidableEq, Repr

/-- The `document_state` table (filename is the primary key, so stores
reachable through the operations hold at most one row per filename). -/
def Store : Type := List StateRow

/-- The dictionary `get_document_state` builds from its eight selected
columns. -/
structure StateDict where
  markdown_hash : String
  pdf_hash : Option String
  style_profile : String
  max_diagram_width : Option String
  max_diagram_height : Option String
  page_margins : Option String
  has_page_numbers : Nat
  updated_at : Nat
deriving DecidableEq, Repr

/-- Project a row onto the columns `get_document_state` selects. -/
def StateRow.toDict (r : StateRow) : StateDict :=
  ⟨r.markdown_hash, r.pdf_hash, r.style_profile, r.max_diagram_width,
   r.max_diagram_height, r.page_margins, r.has_page_numbers, r.updated_at⟩

/-- Embedding of `get_document_state`: SELECT the row keyed by `filename`, returning the
column dictionary or `none`; a read-only transaction, so the store comes
back as it went in. -/
def get_document_state (σ : Store) (filename : String) : Option StateDict × Store :=
  ((σ.find? (fun r => r.filename == filename)).map StateRow.toDict, σ)

/-- Embedding of `save_document_state`: an `INSERT OR REPLACE` keyed on `filename`.  The
REPLACE deletes any existing row with this primary key and inserts a fresh
one; `created_at` is not in the INSERT column list, so the fresh row takes
its default `CURRENT_TIMESTAMP` (= `now`), and `updated_at` is written as
`CURRENT_TIMESTAMP` explicitly. -/
def save_document_state (σ : Store) (filename markdown_hash : String)
    (pdf_hash : Option String) (style_profile : String)
    (max_diagram_width max_diagram_height : Option String)
    (page_margins : Option String) (has_page_numbers : Bool)
    (now : Nat) : Store :=
  { filename := filename, markdown_hash := markdown_hash, pdf_hash := pdf_hash,
    style_profile := style_profile, max_diagram_width := max_diagram_width,
    max_diagram_height := max_diagram_height, page_margins := page_margins,
    has_page_numbers := if has_page_numbers then 1 else 0,
    created_at := now, updated_at := now }
    :: σ.filter (fun r => r.filename != filename)

/-- Python truthiness of an optional string: `if not state[...]` is taken
when the value is `None` or the empty string. -/
def truthyStr : Option String → Bool
  | none => false
  | some s => s != ""

/-- The decision body of `needs_regeneration`, applied to the dictionary
returned by `get_document_state` (`None` on a missing record).  The checks
run in source order: record, markdown hash, style profile, diagram width,
diagram height, page margins, page numbers, stored pdf hash truthiness,
output existence, then fresh hash comparison with the `RuntimeError` of a
failed hash caught as `True`. -/
def regenDecision (state? : Option StateDict) (fs : FileSys)
    (current_markdown_hash : String) (pdf_path : String)
    (current_style_profile : String)
    (current_max_diagram_width current_max_diagram_height : Option String)
    (current_page_margins : Option String)
    (current_has_page_numbers : Bool) : Bool :=
  match state? with
  | none => true
  | some state =>
    if state.markdown_hash ≠ current_markdown_hash then true
    else if state.style_profile ≠ current_style_profile then true
    else if state.max_diagram_width ≠ current_max_diagram_width then true
    else if state.max_diagram_height ≠ current_max_diagram_height then true
    else if state.page_margins ≠ current_page_margins then true
    else if state.has_page_numbers ≠ (if current_has_page_numbers then 1 else 0) then true
    else if !truthyStr state.pdf_hash then true
    else if !fileExists fs pdf_path then true
    else
      match calculate_file_hash fs pdf_path with
      | .ok current_pdf_hash =>
          if some current_pdf_hash ≠ state.pdf_hash then true else false
      | .error _ => true

/-- Embedding of `needs_regeneration`: look the record up, then run the decision body;
only SELECTs and local file hashing, so the store comes back unchanged
through `get_document_state`. -/
def needs_regeneration (σ : Store) (fs : FileSys)
    (filename current_markdown_hash : String) (pdf_path : String)
    (current_style_profile : String)
    (current_max_diagram_width current_max_diagram_height : Option String)
    (current_page_margins : Option String)
    (current_has_page_numbers : Bool) : Bool × Store :=
  let res := get_document_state σ filename
  (regenDecision res.1 fs current_markdown_hash pdf_path current_style_profile
    current_max_diagram_width current_max_diagram_height current_page_margins
    current_has_page_numbers, res.2)

/-- Embedding of `update_pdf_hash`: an `UPDATE document_state SET pdf_hash, updated_at
WHERE filename = ?` — rewrites the matching row (on a miss no rows match
and the statement is a silent no-op). -/
def update_pdf_hash (σ : Store) (filename : String) (pdf_hash : String)
    (now : Nat) : Store :=
  σ.map (fun r =>
    if r.filename == filename then
      { r with pdf_hash := some pdf_hash, updated_at := now }
    else r)

/-- Embedding of `remove_document`: DELETE the row keyed by `filename`. -/
def remove_document (σ : Store) (filename : String) : Store :=
  σ.filter (fun r => r.filename != filename)

/-- Embedding of `clear_all_documents`: a `SELECT COUNT(*)` (the number of rows), then
DROP and re-CREATE the table; returns the count and the emptied store. -/
def clear_all_documents (σ : Store) : Nat × Store :=
  (σ.length, ([] : Store))

/-! Section: helper lemmas. -/

/-- Joining the consecutive chunks gives the original list back. -/
theorem chunksAux_flatten (n : Nat) (hn : 0 < n) :
    ∀ fuel (l : List α), l.length ≤ fuel → (chunksAux n fuel l).flatten = l := by
  intro fuel
  induction fuel with
  | zero =>
    intro l hl
    have : l = [] := List.eq_nil_of_length_eq_zero (Nat.le_zero.mp hl)
    subst this
    rfl
  | succ fuel ih =>
    intro l hl
    match l with
    | [] => rfl
    | a :: l' =>
      rw [chunksAux, List.flatten_cons, ih _ ?_, List.take_append_drop]
      have hlen : ((a :: l').drop n).length = (a :: l').length - n :=
        List.length_drop n (a :: l')
      rw [hlen]
      have : (a :: l').length ≤ fuel + 1 := hl
      omega

/-- Left-folding `++` over a chunk list is flattening. -/
theorem foldl_append_eq_flatten (L : List (List α)) :
    ∀ acc : List α, L.foldl (fun a c => a ++ c) acc = acc ++ L.flatten := by
  induction L with
  | nil => intro acc; simp
  | cons b bs ih =>
    intro acc
    rw [List.foldl_cons, ih (acc ++ b), List.flatten_cons, List.append_assoc]

/-- The accumulating read loop rebuilds exactly the file's bytes. -/
theorem chunksOf_foldl_append (n : Nat) (hn : 0 < n) (l : List α) :
    (chunksOf n l).foldl (fun acc c => acc ++ c) [] = l := by
  rw [foldl_append_eq_flatten, List.nil_append, chunksOf,
    chunksAux_flatten n hn l.length l (Nat.le_refl _)]

/-- The function `processBlock` always returns eight words. -/
theorem processBlock_length (H block : List Nat) : (processBlock H block).length = 8 := by
  rfl

/-- Folding `processBlock` over any block list preserves the eight-word shape. -/
theorem foldl_processBlock_length (bs : List (List Nat)) :
    ∀ H : List Nat, H.length = 8 → (bs.foldl processBlock H).length = 8 := by
  induction bs with
  | nil => intro H hH; exact hH
  | cons b bs ih =>
    intro H hH
    exact ih (processBlock H b) (processBlock_length H b)

/-- The final hash state always has eight words. -/
theorem sha256words_length (msg : List Nat) : (sha256words msg).length = 8 := by
  rw [sha256words]
  exact foldl_processBlock_length _ H256 rfl

/-- A character is a lowercase hexadecimal digit. -/
def isHexLower (c : Char) : Bool :=
  (decide ('0' ≤ c) && decide (c ≤ '9')) || (decide ('a' ≤ c) && decide (c ≤ 'f'))

/-- Applying `hexChar` to a value below 16 gives a lowercase hex digit. -/
theorem hexChar_isHexLower : ∀ m : Fin 16, isHexLower (hexChar m.val) = true := by
  decide

/-- Every character of a word's hex spelling is a lowercase hex digit. -/
theorem wordHex_isHexLower (w : Nat) : ∀ c ∈ wordHex w, isHexLower c = true := by
  have h16 : ∀ x : Nat, isHexLower (hexChar (x % 16)) = true := fun x =>
    hexChar_isHexLower ⟨x % 16, Nat.mod_lt x (by norm_num)⟩
  intro c hc
  simp only [wordHex, List.mem_cons, List.not_mem_nil, or_false] at hc
  rcases hc with h | h | h | h | h | h | h | h <;> rw [h] <;> exact h16 _

/-- Each word renders as exactly eight characters. -/
theorem wordHex_length (w : Nat) : (wordHex w).length = 8 := by
  rfl

/-- The hex digest has exactly 64 characters. -/
theorem sha256hex_length (msg : List Nat) : (sha256hex msg).length = 64 := by
  show (((sha256words msg).map wordHex).flatten).length = 64
  rw [List.length_flatten, List.map_map]
  have : ((sha256words msg).map (List.length ∘ wordHex)) = (sha256words msg).map (fun _ => 8) := by
    apply List.map_congr_left
    intro w _
    exact wordHex_length w
  rw [this, List.map_const', List.sum_replicate, sha256words_length]
  simp [smul_eq_mul]

/-- Every character of the hex digest is a lowercase hex digit. -/
theorem sha256hex_isHexLower (msg : List Nat) :
    (sha256hex msg).toList.all isHexLower = true := by
  rw [List.all_eq_true]
  intro c hc
  have hc' : c ∈ ((sha256words msg).map wordHex).flatten := hc
  rw [List.mem_flatten] at hc'
  obtain ⟨l, hl, hcl⟩ := hc'
  rw [List.mem_map] at hl
  obtain ⟨w, _, rfl⟩ := hl
  exact wordHex_isHexLower w c hcl

/-- The digest is never the empty string (needed because Python truthiness
conflates `None` and `""`). -/
theorem sha256hex_ne_empty (msg : List Nat) : sha256hex msg ≠ "" := by
  intro h
  have := sha256hex_length msg
  rw [h] at this
  simp at this

/-- On a readable file, `calculate_file_hash` succeeds with the one-shot
digest of its bytes. -/
theorem calculate_file_hash_content (fs : FileSys) (p : String) (bs : List Nat)
    (h : fs p = .content bs) : calculate_file_hash fs p = .ok (sha256hex bs) := by
  simp only [calculate_file_hash, readChunks4096, h]
  rw [chunksOf_foldl_append 4096 (by norm_num) bs]

/-- Any successful fingerprint is a 64-character digest. -/
theorem calculate_file_hash_ok_length (fs : FileSys) (p : String) (s : String)
    (h : calculate_file_hash fs p = .ok s) : s.length = 64 := by
  rw [calculate_file_hash] at h
  match hr : readChunks4096 fs p with
  | .ok cs =>
    rw [hr] at h
    cases h
    exact sha256hex_length _
  | .error e =>
    rw [hr] at h
    cases h

/-- The fingerprinter `calculate_file_hash` only ever fails with `RuntimeError`: the wrapper
catches every lower-level exception. -/
theorem calculate_file_hash_error (fs : FileSys) (p : String) (e : PyError)
    (h : calculate_file_hash fs p = .error e) : e = .runtimeError := by
  rw [calculate_file_hash] at h
  match hr : readChunks4096 fs p with
  | .ok cs => rw [hr] at h; cases h
  | .error e' => rw [hr] at h; cases h; rfl

/-- Reading via `get_document_state` is a pure SELECT: the store comes back unchanged. -/
theorem get_document_state_store (σ : Store) (f : String) :
    (get_document_state σ f).2 = σ := rfl

/-- Checking `needs_regeneration` is SELECTs plus local hashing: the store comes
back unchanged. -/
theorem needs_regeneration_store (σ : Store) (fs : FileSys) (f s p pr : String)
    (w hg m : Option String) (pn : Bool) :
    (needs_regeneration σ fs f s p pr w hg m pn).2 = σ := rfl

/-- Reading back immediately after a save returns the freshly inserted row's
column dictionary. -/
theorem get_after_save (σ : Store) (f md : String) (pdf : Option String)
    (pr : String) (w hg m : Option String) (pn : Bool) (now : Nat) :
    (get_document_state (save_document_state σ f md pdf pr w hg m pn now) f).1 =
      some ⟨md, pdf, pr, w, hg, m, if pn then 1 else 0, now⟩ := by
  simp [get_document_state, save_document_state, StateRow.toDict]

/-- The decision body returns `false` exactly when the record is fresh in
every respect: all stored fields match, a non-empty output hash is stored,
the output exists, and its fresh fingerprint equals the stored one. -/
theorem regenDecision_some_false_iff (st : StateDict) (fs : FileSys)
    (s p pr : String) (w hg m : Option String) (pn : Bool) :
    regenDecision (some st) fs s p pr w hg m pn = false ↔
      st.markdown_hash = s ∧ st.style_profile = pr ∧
      st.max_diagram_width = w ∧ st.max_diagram_height = hg ∧
      st.page_margins = m ∧ st.has_page_numbers = (if pn then 1 else 0) ∧
      st.pdf_hash ≠ none ∧ fileExists fs p = true ∧
      ∃ hh, calculate_file_hash fs p = Except.ok hh ∧ st.pdf_hash = some hh := by
  generalize hk : (if pn then (1 : Nat) else 0) = k
  simp only [regenDecision, hk]
  split_ifs with h1 h2 h3 h4 h5 h6 h7 h8
  · exact iff_of_false (by simp) (by rintro ⟨hmd, -⟩; exact h1 hmd)
  · exact iff_of_false (by simp) (by rintro ⟨-, hpr, -⟩; exact h2 hpr)
  · exact iff_of_false (by simp) (by rintro ⟨-, -, hw, -⟩; exact h3 hw)
  · exact iff_of_false (by simp) (by rintro ⟨-, -, -, hhg, -⟩; exact h4 hhg)
  · exact iff_of_false (by simp) (by rintro ⟨-, -, -, -, hm, -⟩; exact h5 hm)
  · exact iff_of_false (by simp) (by rintro ⟨-, -, -, -, -, hpn, -⟩; exact h6 hpn)
  · refine iff_of_false (by simp) ?_
    rintro ⟨-, -, -, -, -, -, -, -, hh, hcalc, hpdf⟩
    have hlen := calculate_file_hash_ok_length fs p hh hcalc
    have hne : hh ≠ "" := by
      intro h0
      rw [h0] at hlen
      simp at hlen
    rw [hpdf] at h7
    simp [truthyStr, hne] at h7
  · refine iff_of_false (by simp) ?_
    rintro ⟨-, -, -, -, -, -, -, hex, -⟩
    rw [hex] at h8
    simp at h8
  · simp only [Bool.not_eq_true, Bool.not_eq_false'] at h7 h8
    cases hc : calculate_file_hash fs p with
    | error e =>
      show true = false ↔ _
      refine iff_of_false (by simp) ?_
      rintro ⟨-, -, -, -, -, -, -, -, hh, hcalc, -⟩
      exact absurd hcalc (by simp)
    | ok hh' =>
      show (if some hh' ≠ st.pdf_hash then true else false) = false ↔ _
      by_cases h9 : some hh' ≠ st.pdf_hash
      · rw [if_pos h9]
        refine iff_of_false (by simp) ?_
        rintro ⟨-, -, -, -, -, -, -, -, hh, hcalc, hpdf⟩
        cases hcalc
        exact h9 hpdf.symm
      · rw [if_neg h9]
        rw [not_ne_iff] at h9
        refine iff_of_true rfl ?_
        refine ⟨not_ne_iff.mp h1, not_ne_iff.mp h2, not_ne_iff.mp h3,
          not_ne_iff.mp h4, not_ne_iff.mp h5, not_ne_iff.mp h6, ?_, h8, hh', rfl, h9.symm⟩
        rw [← h9]
        simp

/-- A configuration-field mismatch alone forces the decision to `true`. -/
theorem regenDecision_true_of_config_mismatch (st : StateDict) (fs : FileSys)
    (s path pr : String) (w hg m : Option String) (pn : Bool)
    (hmis : st.style_profile ≠ pr ∨ st.max_diagram_width ≠ w ∨
      st.max_diagram_height ≠ hg ∨ st.page_margins ≠ m ∨
      st.has_page_numbers ≠ (if pn then 1 else 0)) :
    regenDecision (some st) fs s path pr w hg m pn = true := by
  cases hb : regenDecision (some st) fs s path pr w hg m pn with
  | true => rfl
  | false =>
    exfalso
    obtain ⟨-, h2, h3, h4, h5, h6, -⟩ :=
      (regenDecision_some_false_iff st fs s path pr w hg m pn).mp hb
    rcases hmis with h | h | h | h | h
    · exact h h2
    · exact h h3
    · exact h h4
    · exact h h5
    · exact h h6

/-! Section: the claims. -/

/-- C1: `needs_regeneration` returns `false` if and only if all six
positive conditions hold — a record exists for the identifier, the stored
source fingerprint equals the current one, every stored configuration
field (style profile, max diagram width, max diagram height, page margins,
page-numbers flag) equals the corresponding current field, the stored
output fingerprint is present, the file at the output path exists, and the
freshly computed fingerprint of that file equals the stored output
fingerprint; if any condition fails it returns `true`. -/
theorem needs_regeneration_false_iff (σ : Store) (fs : FileSys)
    (filename s path pr : String) (w hg m : Option String) (pn : Bool) :
    (needs_regeneration σ fs filename s path pr w hg m pn).1 = false ↔
      ∃ st, (get_document_state σ filename).1 = some st ∧
        st.markdown_hash = s ∧ st.style_profile = pr ∧
        st.max_diagram_width = w ∧ st.max_diagram_height = hg ∧
        st.page_margins = m ∧ st.has_page_numbers = (if pn then 1 else 0) ∧
        st.pdf_hash ≠ none ∧ fileExists fs path = true ∧
        ∃ hh, calculate_file_hash fs path = Except.ok hh ∧ st.pdf_hash = some hh := by
  have hrw : (needs_regeneration σ fs filename s path pr w hg m pn).1
      = regenDecision (get_document_state σ filename).1 fs s path pr w hg m pn := rfl
  cases hget : (get_document_state σ filename).1 with
  | none =>
    rw [hrw, hget]
    constructor
    · intro hfalse
      simp [regenDecision] at hfalse
    · rintro ⟨st, hst, -⟩
      cases hst
  | some st =>
    rw [hrw, hget, regenDecision_some_false_iff]
    constructor
    · intro hc
      exact ⟨st, rfl, hc⟩
    · rintro ⟨st', hst', hc⟩
      cases hst'
      exact hc

/-- C2: after a save, changing any single configuration field — style
profile, diagram width, diagram height, page margins, or the page-numbers
flag — while the source fingerprint, the output file and all other fields
stay unchanged makes `needs_regeneration` return `true`. -/
theorem config_change_forces_regen (σ : Store) (fs : FileSys) (f s : String)
    (pdf : Option String) (pr : String) (w hg m : Option String) (pn : Bool)
    (now : Nat) (path pr' : String) (w' hg' m' : Option String) (pn' : Bool) :
    (pr' ≠ pr →
      (needs_regeneration (save_document_state σ f s pdf pr w hg m pn now)
        fs f s path pr' w hg m pn).1 = true) ∧
    (w' ≠ w →
      (needs_regeneration (save_document_state σ f s pdf pr w hg m pn now)
        fs f s path pr w' hg m pn).1 = true) ∧
    (hg' ≠ hg →
      (needs_regeneration (save_document_state σ f s pdf pr w hg m pn now)
        fs f s path pr w hg' m pn).1 = true) ∧
    (m' ≠ m →
      (needs_regeneration (save_document_state σ f s pdf pr w hg m pn now)
        fs f s path pr w hg m' pn).1 = true) ∧
    (pn' ≠ pn →
      (needs_regeneration (save_document_state σ f s pdf pr w hg m pn now)
        fs f s path pr w hg m pn').1 = true) := by
  have hget := get_after_save σ f s pdf pr w hg m pn now
  refine ⟨fun hne => ?_, fun hne => ?_, fun hne => ?_, fun hne => ?_, fun hne => ?_⟩
  · have hrw : (needs_regeneration (save_document_state σ f s pdf pr w hg m pn now)
        fs f s path pr' w hg m pn).1
        = regenDecision (get_document_state
            (save_document_state σ f s pdf pr w hg m pn now) f).1
              fs s path pr' w hg m pn := rfl
    rw [hrw, hget]
    exact regenDecision_true_of_config_mismatch _ fs s path pr' w hg m pn
      (Or.inl (Ne.symm hne))
  · have hrw : (needs_regeneration (save_document_state σ f s pdf pr w hg m pn now)
        fs f s path pr w' hg m pn).1
        = regenDecision (get_document_state
            (save_document_state σ f s pdf pr w hg m pn now) f).1
              fs s path pr w' hg m pn := rfl
    rw [hrw, hget]
    exact regenDecision_true_of_config_mismatch _ fs s path pr w' hg m pn
      (Or.inr (Or.inl (Ne.symm hne)))
  · have hrw : (needs_regeneration (save_document_state σ f s pdf pr w hg m pn now)
        fs f s path pr w hg' m pn).1
        = regenDecision (get_document_state
            (save_document_state σ f s pdf pr w hg m pn now) f).1
              fs s path pr w hg' m pn := rfl
    rw [hrw, hget]
    exact regenDecision_true_of_config_mismatch _ fs s path pr w hg' m pn
      (Or.inr (Or.inr (Or.inl (Ne.symm hne))))
  · have hrw : (needs_regeneration (save_document_state σ f s pdf pr w hg m pn now)
        fs f s path pr w hg m' pn).1
        = regenDecision (get_document_state
            (save_document_state σ f s pdf pr w hg m pn now) f).1
              fs s path pr w hg m' pn := rfl
    rw [hrw, hget]
    exact regenDecision_true_of_config_mismatch _ fs s path pr w hg m' pn
      (Or.inr (Or.inr (Or.inr (Or.inl (Ne.symm hne)))))
  · have hrw : (needs_regeneration (save_document_state σ f s pdf pr w hg m pn now)
        fs f s path pr w hg m pn').1
        = regenDecision (get_document_state
            (save_document_state σ f s pdf pr w hg m pn now) f).1
              fs s path pr w hg m pn' := rfl
    rw [hrw, hget]
    refine regenDecision_true_of_config_mismatch _ fs s path pr w hg m pn'
      (Or.inr (Or.inr (Or.inr (Or.inr ?_))))
    show (if pn then (1 : Nat) else 0) ≠ (if pn' then 1 else 0)
    cases pn <;> cases pn' <;> simp_all

/-- C2 witness: a concrete store, one save, and each of the five
single-field changes flipping the check to `true`. -/
theorem config_change_forces_regen_witness :
    ((needs_regeneration (save_document_state [] "doc.md" "hashA" (some "hashB")
        "a4-print" (some "1680") (some "2240") (some "1in 0.75in") true 0)
      (fun _ => FileState.absent) "doc.md" "hashA" "out.pdf" "a4-screen"
      (some "1680") (some "2240") (some "1in 0.75in") true).1 = true) ∧
    ((needs_regeneration (save_document_state [] "doc.md" "hashA" (some "hashB")
        "a4-print" (some "1680") (some "2240") (some "1in 0.75in") true 0)
      (fun _ => FileState.absent) "doc.md" "hashA" "out.pdf" "a4-print"
      (some "1000") (some "2240") (some "1in 0.75in") true).1 = true) ∧
    ((needs_regeneration (save_document_state [] "doc.md" "hashA" (some "hashB")
        "a4-print" (some "1680") (some "2240") (some "1in 0.75in") true 0)
      (fun _ => FileState.absent) "doc.md" "hashA" "out.pdf" "a4-print"
      (some "1680") (some "2000") (some "1in 0.75in") true).1 = true) ∧
    ((needs_regeneration (save_document_state [] "doc.md" "hashA" (some "hashB")
        "a4-print" (some "1680") (some "2240") (some "1in 0.75in") true 0)
      (fun _ => FileState.absent) "doc.md" "hashA" "out.pdf" "a4-print"
      (some "1680") (some "2240") (some "2in") true).1 = true) ∧
    ((needs_regeneration (save_document_state [] "doc.md" "hashA" (some "hashB")
        "a4-print" (some "1680") (some "2240") (some "1in 0.75in") true 0)
      (fun _ => FileState.absent) "doc.md" "hashA" "out.pdf" "a4-print"
      (some "1680") (some "2240") (some "1in 0.75in") false).1 = true) := by
  obtain ⟨c1, c2, c3, c4, c5⟩ := config_change_forces_regen
    [] (fun _ => FileState.absent) "doc.md" "hashA" (some "hashB")
    "a4-print" (some "1680") (some "2240") (some "1in 0.75in") true 0
    "out.pdf" "a4-screen" (some "1000") (some "2000") (some "2in") false
  exact ⟨c1 (by decide), c2 (by decide), c3 (by decide), c4 (by decide), c5 (by decide)⟩

/-- C3: after `save_document_state`, repeated `needs_regeneration` calls
with the same source fingerprint and configuration return `false`, provided
the file at the output path exists and its computed fingerprint equals the
saved output fingerprint, with neither the store nor the file modified in
between. -/
theorem regen_false_after_save (σ : Store) (fs : FileSys) (f s h pr : String)
    (w hg m : Option String) (pn : Bool) (now : Nat) (path : String)
    (bs : List Nat) (hfile : fs path = FileState.content bs)
    (hhash : sha256hex bs = h) :
    (needs_regeneration (save_document_state σ f s (some h) pr w hg m pn now)
      fs f s path pr w hg m pn).1 = false ∧
    (needs_regeneration
      (needs_regeneration (save_document_state σ f s (some h) pr w hg m pn now)
        fs f s path pr w hg m pn).2
      fs f s path pr w hg m pn).1 = false := by
  have hone : (needs_regeneration (save_document_state σ f s (some h) pr w hg m pn now)
      fs f s path pr w hg m pn).1 = false := by
    have hrw : (needs_regeneration (save_document_state σ f s (some h) pr w hg m pn now)
        fs f s path pr w hg m pn).1
        = regenDecision (get_document_state
            (save_document_state σ f s (some h) pr w hg m pn now) f).1
              fs s path pr w hg m pn := rfl
    rw [hrw, get_after_save, regenDecision_some_false_iff]
    refine ⟨rfl, rfl, rfl, rfl, rfl, rfl, by simp, by simp [fileExists, hfile], h, ?_, rfl⟩
    rw [calculate_file_hash_content fs path bs hfile, hhash]
  refine ⟨hone, ?_⟩
  rw [needs_regeneration_store]
  exact hone

/-- C3 witness: one concrete save followed by two staleness checks against
a one-byte output file hashing to the saved fingerprint. -/
theorem regen_false_after_save_witness :
    (needs_regeneration (save_document_state [] "doc.md" "hashA"
        (some (sha256hex [97])) "a4-print" (some "1680") (some "2240")
        (some "1in 0.75in") true 3)
      (fun _ => FileState.content [97]) "doc.md" "hashA" "out.pdf" "a4-print"
      (some "1680") (some "2240") (some "1in 0.75in") true).1 = false ∧
    (needs_regeneration
      (needs_regeneration (save_document_state [] "doc.md" "hashA"
          (some (sha256hex [97])) "a4-print" (some "1680") (some "2240")
          (some "1in 0.75in") true 3)
        (fun _ => FileState.content [97]) "doc.md" "hashA" "out.pdf" "a4-print"
        (some "1680") (some "2240") (some "1in 0.75in") true).2
      (fun _ => FileState.content [97]) "doc.md" "hashA" "out.pdf" "a4-print"
      (some "1680") (some "2240") (some "1in 0.75in") true).1 = false :=
  regen_false_after_save [] (fun _ => FileState.content [97]) "doc.md" "hashA"
    (sha256hex [97]) "a4-print" (some "1680") (some "2240") (some "1in 0.75in")
    true 3 "out.pdf" [97] rfl rfl

/-- C4: evaluating the code at the failing input.  The first save at time 0
gives the row `created_at = 0`, but a second save for the same identifier
at time 7 resets `created_at` to 7: the `INSERT OR REPLACE` deletes the old
row and inserts a fresh one, so the omitted `created_at` column takes its
`CURRENT_TIMESTAMP` default again instead of being preserved. -/
theorem save_resets_created_at :
    (((save_document_state [] "doc.md" "hashA" none "a4-print" none none none
        true 0).find? (fun r => r.filename == "doc.md")).map
      StateRow.created_at = some 0) ∧
    (((save_document_state
        (save_document_state [] "doc.md" "hashA" none "a4-print" none none none
          true 0)
        "doc.md" "hashA" none "a4-print" none none none true 7).find?
      (fun r => r.filename == "doc.md")).map StateRow.created_at = some 7) := by
  constructor <;> rfl

/-- C5 counterexample: on a file the interpreter cannot open, the
fingerprinter fails with `RuntimeError`, not with the `IOError` the claim
names — the wrapper catches every underlying exception and re-raises
`RuntimeError`. -/
theorem calculate_file_hash_not_ioerror :
    calculate_file_hash (fun _ => FileState.absent) "missing.md"
      = Except.error PyError.runtimeError ∧
    calculate_file_hash (fun _ => FileState.absent) "missing.md"
      ≠ Except.error PyError.ioError := by
  refine ⟨rfl, fun h => ?_⟩
  rw [show calculate_file_hash (fun _ => FileState.absent) "missing.md"
      = Except.error PyError.runtimeError from rfl] at h
  cases h

/-- C5 (amended): for every path whose file is missing or unreadable, the
fingerprinter fails with `RuntimeError` (wrapping the underlying I/O
failure), and the failure is propagated to the caller as an error rather
than reported as a changed or absent fingerprint value. -/
theorem calculate_file_hash_fails_runtime (fs : FileSys) (p : String)
    (h : fs p = FileState.absent ∨ fs p = FileState.unreadable) :
    calculate_file_hash fs p = Except.error PyError.runtimeError := by
  rcases h with h | h <;> simp [calculate_file_hash, readChunks4096, h]

/-- C5 witness: the amended failure mode at a concrete unreadable file. -/
theorem calculate_file_hash_fails_runtime_witness :
    calculate_file_hash (fun _ => FileState.unreadable) "locked.pdf"
      = Except.error PyError.runtimeError :=
  calculate_file_hash_fails_runtime (fun _ => FileState.unreadable) "locked.pdf"
    (Or.inr rfl)

/-- C6: when the record, the source fingerprint and the whole configuration
match and the output file exists but fingerprinting it fails, the failure
is caught and `needs_regeneration` returns `true` instead of propagating
the error. -/
theorem regen_true_on_hash_failure (σ : Store) (fs : FileSys)
    (f s path pr : String) (w hg m : Option String) (pn : Bool)
    (st : StateDict) (hget : (get_document_state σ f).1 = some st)
    (hmd : st.markdown_hash = s) (hpr : st.style_profile = pr)
    (hw : st.max_diagram_width = w) (hhg : st.max_diagram_height = hg)
    (hm : st.page_margins = m)
    (hpn : st.has_page_numbers = (if pn then 1 else 0))
    (hpdf : truthyStr st.pdf_hash = true)
    (hfile : fs path = FileState.unreadable) :
    (needs_regeneration σ fs f s path pr w hg m pn).1 = true := by
  have hrw : (needs_regeneration σ fs f s path pr w hg m pn).1
      = regenDecision (get_document_state σ f).1 fs s path pr w hg m pn := rfl
  have hcalc : calculate_file_hash fs path = Except.error PyError.runtimeError := by
    simp [calculate_file_hash, readChunks4096, hfile]
  have hex : fileExists fs path = true := by simp [fileExists, hfile]
  rw [hrw, hget]
  simp [regenDecision, hmd, hpr, hw, hhg, hm, hpn, hpdf, hex, hcalc]

/-- C6 witness: a concrete matching record whose output file exists but
cannot be hashed. -/
theorem regen_true_on_hash_failure_witness :
    (needs_regeneration
      [{ filename := "doc.md", markdown_hash := "hashA",
         pdf_hash := some "hashB", style_profile := "a4-print",
         max_diagram_width := none, max_diagram_height := none,
         page_margins := none, has_page_numbers := 1,
         created_at := 0, updated_at := 0 }]
      (fun _ => FileState.unreadable) "doc.md" "hashA" "out.pdf" "a4-print"
      none none none true).1 = true :=
  regen_true_on_hash_failure _ _ "doc.md" "hashA" "out.pdf" "a4-print"
    none none none true _ rfl rfl rfl rfl rfl rfl rfl (by decide) rfl

/-- C7: `clear_all_documents` returns exactly the number of records present
immediately before the call, and afterwards `get_document_state` returns
`none` for every identifier. -/
theorem clear_all_documents_spec (σ : Store) (filename : String) :
    (clear_all_documents σ).1 = σ.length ∧
    (get_document_state (clear_all_documents σ).2 filename).1 = none :=
  ⟨rfl, rfl⟩

/-- C8: on every readable byte content, `calculate_file_hash` — the
chunked, incrementally accumulated computation over 4096-byte reads —
returns exactly the one-shot SHA-256 digest of the entire content, as a
64-character lowercase hexadecimal string. -/
theorem chunked_hash_eq_oneshot (fs : FileSys) (p : String) (bs : List Nat)
    (hfile : fs p = FileState.content bs) :
    calculate_file_hash fs p = Except.ok (sha256hex bs) ∧
    (sha256hex bs).length = 64 ∧
    (sha256hex bs).toList.all isHexLower = true :=
  ⟨calculate_file_hash_content fs p bs hfile, sha256hex_length bs,
    sha256hex_isHexLower bs⟩

/-- C8 witness: the three-byte file holding "abc". -/
theorem chunked_hash_eq_oneshot_witness :
    calculate_file_hash (fun _ => FileState.content [97, 98, 99]) "doc.md"
      = Except.ok (sha256hex [97, 98, 99]) ∧
    (sha256hex [97, 98, 99]).length = 64 ∧
    (sha256hex [97, 98, 99]).toList.all isHexLower = true :=
  chunked_hash_eq_oneshot (fun _ => FileState.content [97, 98, 99]) "doc.md"
    [97, 98, 99] rfl

/-- C9: `get_document_state` and `needs_regeneration` perform no writes —
whatever they return, the store afterwards is identical to the store
before; staleness is recomputed, never stored. -/
theorem read_ops_leave_store_unchanged (σ : Store) (fs : FileSys)
    (f s path pr : String) (w hg m : Option String) (pn : Bool) :
    (get_document_state σ f).2 = σ ∧
    (needs_regeneration σ fs f s path pr w hg m pn).2 = σ :=
  ⟨get_document_state_store σ f,
    needs_regeneration_store σ fs f s path pr w hg m pn⟩

/-- C10: `update_pdf_hash` on an identifier with an existing row replaces
only the output fingerprint and `updated_at`, leaving the source
fingerprint, every configuration field and `created_at` unchanged; on an
identifier with no row it is a silent no-op that leaves the store
unchanged. -/
theorem update_pdf_hash_spec (σ : Store) (f h : String) (now : Nat) :
    (∀ r : StateRow, σ.find? (fun r => r.filename == f) = some r →
      (update_pdf_hash σ f h now).find? (fun r => r.filename == f)
        = some { r with pdf_hash := some h, updated_at := now }) ∧
    (σ.find? (fun r => r.filename == f) = none →
      update_pdf_hash σ f h now = σ) := by
  constructor
  · induction σ with
    | nil => intro r hr; cases hr
    | cons r0 rest ih =>
      intro r hr
      by_cases h0 : (r0.filename == f) = true
      · simp only [List.find?_cons, h0] at hr
        cases hr
        have heq : r0.filename = f := by simpa using h0
        simp [update_pdf_hash, List.find?_cons, heq]
      · have h0' : (r0.filename == f) = false := Bool.eq_false_iff.mpr h0
        simp only [List.find?_cons, h0'] at hr
        simp only [update_pdf_hash, List.map_cons, h0', Bool.false_eq_true,
          if_false, List.find?_cons]
        exact ih r hr
  · induction σ with
    | nil => intro _; rfl
    | cons r0 rest ih =>
      intro hnone
      by_cases h0 : (r0.filename == f) = true
      · simp only [List.find?_cons, h0] at hnone
        cases hnone
      · have h0' : (r0.filename == f) = false := Bool.eq_false_iff.mpr h0
        simp only [List.find?_cons, h0'] at hnone
        simp only [update_pdf_hash, List.map_cons, if_neg h0]
        exact congrArg (fun l => r0 :: l) (ih hnone)

/-- C10 witness: an existing row gets exactly its `pdf_hash` and
`updated_at` rewritten; the empty store is untouched. -/
theorem update_pdf_hash_spec_witness :
    ((update_pdf_hash
        [{ filename := "doc.md", markdown_hash := "hashA",
           pdf_hash := none, style_profile := "a4-print",
           max_diagram_width := some "1680", max_diagram_height := some "2240",
           page_margins := some "1in 0.75in", has_page_numbers := 1,
           created_at := 2, updated_at := 2 }]
        "doc.md" "hashB" 9).find? (fun r => r.filename == "doc.md")
      = some { filename := "doc.md", markdown_hash := "hashA",
               pdf_hash := some "hashB", style_profile := "a4-print",
               max_diagram_width := some "1680",
               max_diagram_height := some "2240",
               page_margins := some "1in 0.75in", has_page_numbers := 1,
               created_at := 2, updated_at := 9 }) ∧
    update_pdf_hash ([] : Store) "doc.md" "hashB" 9 = [] :=
  ⟨(update_pdf_hash_spec
      [{ filename := "doc.md", markdown_hash := "hashA",
         pdf_hash := none, style_profile := "a4-print",
         max_diagram_width := some "1680", max_diagram_height := some "2240",
         page_margins := some "1in 0.75in", has_page_numbers := 1,
         created_at := 2, updated_at := 2 }] "doc.md" "hashB" 9).1
      { filename := "doc.md", markdown_hash := "hashA",
        pdf_hash := none, style_profile := "a4-print",
        max_diagram_width := some "1680", max_diagram_height := some "2240",
        page_margins := some "1in 0.75in", has_page_numbers := 1,
        created_at := 2, updated_at := 2 } rfl,
    (update_pdf_hash_spec [] "doc.md" "hashB" 9).2 rfl⟩

end MdToPdf
